import Mathlib

/-
  Verification of the ZombieRun geospatial simulation engine
  (GameServer/models/game.py and the population-generation part of
  GameServer/controllers/api.py) against its natural-language
  specification.

  The Python code is shallowly embedded: floats are idealised as real
  numbers, JSON-encoded entity blobs are modelled as association lists of
  string keys to JSON values, and every Python operation that can raise an
  exception is modelled in the Except monad.  Python 2 peculiarities that
  the code relies on (truthiness of 0/None/empty string, None comparing
  less than every number, unbound loop variables after an empty loop) are
  modelled explicitly where the control flow depends on them.
-/

namespace ZombieRun

/- Module-level constants of models/game.py. -/

def RADIUS_OF_EARTH_METERS : ℝ := 6378100

def TRIGGER_DISTANCE_METERS : ℝ := 10

def ZOMBIE_VISION_DISTANCE_METERS : ℝ := 200

def MAX_TIME_INTERVAL_SECS : ℝ := 60 * 10

def ZOMBIE_SPEED_VARIANCE : ℝ := 0.2

def MAX_ZOMBIE_CLUSTER_RADIUS : ℝ := 30

/-- Exceptions the embedded code can raise.  modelState and
invalidLocation are the model's own error classes; the others model
built-in Python exceptions. -/
inductive Err where
  | invalidLocation
  | modelState
  | keyError
  | typeError
  | nameError
  | attributeError
  | zeroDivision
  deriving DecidableEq

/- JSON model: the encoded entity blobs produced by json.dumps of the
flat DictForJson dictionaries.  Only numbers, strings and null occur. -/

inductive JVal where
  | num (x : ℝ)
  | str (s : String)
  | null

abbrev Jobj := List (String × JVal)

def keyLat : String := "lat"
def keyLon : String := "lon"
def keyEmail : String := "email"
def keySpeed : String := "speed"
def keyChasing : String := "chasing"
def emptyStr : String := ""

/-- obj[k] : raises KeyError when the key is absent. -/
def jget (o : Jobj) (k : String) : Except Err JVal :=
  match o.find? (fun kv => kv.1 == k) with
  | some kv => Except.ok kv.2
  | none => Except.error Err.keyError

/-- obj.has_key(k). -/
def jmem (o : Jobj) (k : String) : Bool :=
  (o.find? (fun kv => kv.1 == k)).isSome

/-- Python truthiness of a JSON value: None, 0 and the empty string are
falsy. -/
noncomputable def jtruthy : JVal → Bool
  | JVal.null => false
  | JVal.num x => if x = 0 then false else true
  | JVal.str s => if s = emptyStr then false else true

/-- A JSON value used as a float.  Encoded entities only ever hold numeric
lat, lon and speed, so other shapes are modelled as a TypeError. -/
def jnum : JVal → Except Err ℝ
  | JVal.num x => Except.ok x
  | _ => Except.error Err.typeError

/-- A JSON value stored into an Optional-string attribute (email,
chasing): null stands for None.  The encoder never emits numbers here. -/
def jstrOrNull : JVal → Except Err (Option String)
  | JVal.str s => Except.ok (some s)
  | JVal.null => Except.ok none
  | JVal.num _ => Except.error Err.typeError

def jvalOfOpt : Option ℝ → JVal
  | none => JVal.null
  | some x => JVal.num x

def jvalOfStrOpt : Option String → JVal
  | none => JVal.null
  | some s => JVal.str s

/-- Python truthiness of an optional coordinate: None and 0 are falsy
(used by Entity.FromString and Game.LocatedPlayers). -/
noncomputable def truthyF : Option ℝ → Bool
  | none => false
  | some x => if x = 0 then false else true

/-- Python 2 comparison used by ComputeChasing: None < number is True. -/
noncomputable def pyLtNone (a : Option ℝ) (b : ℝ) : Bool :=
  match a with
  | none => true
  | some x => if x < b then true else false

/- Entity location handling. -/

/-- Entity.SetLocation: validates the ranges, raising
InvalidLocationError, and returns the new location tuple. -/
noncomputable def SetLocation (lat lon : ℝ) : Except Err (ℝ × ℝ) :=
  if lat > 90 ∨ lat < -90 then Except.error Err.invalidLocation
  else if lon > 180 ∨ lon < -180 then Except.error Err.invalidLocation
  else Except.ok (lat, lon)

/-- math.radians. -/
noncomputable def radiansOf (d : ℝ) : ℝ := d * (Real.pi / 180)

/-- math.atan2 (exact-real idealisation). -/
noncomputable def atan2 (y x : ℝ) : ℝ :=
  if 0 < x then Real.arctan (y / x)
  else if x < 0 then
    (if 0 ≤ y then Real.arctan (y / x) + Real.pi
     else Real.arctan (y / x) - Real.pi)
  else
    (if 0 < y then Real.pi / 2
     else if y < 0 then -(Real.pi / 2)
     else 0)

/-- Entity.DistanceFromLatLon: haversine great-circle distance from the
entity at (selfLat, selfLon) to (lat, lon), in meters. -/
noncomputable def DistanceFromLatLon (selfLat selfLon lat lon : ℝ) : ℝ :=
  let dlon := lon - selfLon
  let dlat := lat - selfLat
  let a := Real.sin (radiansOf (dlat / 2)) ^ 2 +
    Real.cos (radiansOf selfLat) * Real.cos (radiansOf lat) *
      Real.sin (radiansOf (dlon / 2)) ^ 2
  let greatCircleDistance := 2 * atan2 (Real.sqrt a) (Real.sqrt (1 - a))
  RADIUS_OF_EARTH_METERS * greatCircleDistance

/-- Entity.DistanceFrom on possibly-unset locations: arithmetic on a None
coordinate raises TypeError in Python. -/
noncomputable def DistanceFromOpt (aLat aLon bLat bLon : Option ℝ) :
    Except Err ℝ :=
  match aLat, aLon, bLat, bLon with
  | some p, some q, some u, some v => Except.ok (DistanceFromLatLon p q u v)
  | _, _, _, _ => Except.error Err.typeError

/- Reduction lemmas for the Except monad. -/

@[simp] theorem ok_bind {α β : Type} (a : α) (f : α → Except Err β) :
    (Except.ok a >>= f) = f a := rfl

@[simp] theorem error_bind {α β : Type} (e : Err) (f : α → Except Err β) :
    ((Except.error e : Except Err α) >>= f) = Except.error e := rfl

@[simp] theorem pure_eq_ok {α : Type} (a : α) :
    (pure a : Except Err α) = Except.ok a := rfl

/- Entities.  The Python classes are modelled as plain structures; the
location tuple (initialised to (None, None)) becomes two Option fields. -/

structure Player where
  lat : Option ℝ
  lon : Option ℝ
  email : Option String

/-- The chasing attribute of a Zombie: ComputeChasing stores a Player
object, but Zombie.FromString stores the raw decoded value (an email
string). -/
inductive ChasingRef where
  | playerRef (p : Player)
  | emailRef (s : String)

structure Zombie where
  lat : Option ℝ
  lon : Option ℝ
  speed : Option ℝ
  chasing : Option ChasingRef

/-- Python truthiness of the chasing attribute: objects are truthy, a
string is truthy unless empty, None is falsy. -/
noncomputable def chasingTruthy : Option ChasingRef → Bool
  | none => false
  | some (ChasingRef.playerRef _) => true
  | some (ChasingRef.emailRef s) => if s = emptyStr then false else true

/-- Entity.FromString, location part: the location is set only when both
obj[lat] and obj[lon] are truthy (so 0 and null are dropped); lookup of a
missing key raises KeyError, with Python and-short-circuiting. -/
noncomputable def entityLocFromJson (o : Jobj) : Except Err (Option ℝ × Option ℝ) := do
  let latV ← jget o keyLat
  if jtruthy latV then do
    let lonV ← jget o keyLon
    if jtruthy lonV then do
      let latN ← jnum latV
      let lonN ← jnum lonV
      let loc ← SetLocation latN lonN
      pure (some loc.1, some loc.2)
    else pure (none, none)
  else pure (none, none)

/-- Player(encoded): Entity.FromString then self.email = obj[email]. -/
noncomputable def playerFromJson (o : Jobj) : Except Err Player := do
  let loc ← entityLocFromJson o
  let emailV ← jget o keyEmail
  let email ← jstrOrNull emailV
  pure (Player.mk loc.1 loc.2 email)

/-- Player.DictForJson / ToString: raises ModelStateError when the email
is unset. -/
def playerToJson (p : Player) : Except Err Jobj :=
  match p.email with
  | none => Except.error Err.modelState
  | some e =>
    Except.ok [(keyLat, jvalOfOpt p.lat), (keyLon, jvalOfOpt p.lon),
               (keyEmail, JVal.str e)]

/-- The decoded chasing value stored by Zombie.FromString.  The encoder
only ever writes an email string or null there. -/
def chasingFromJVal : JVal → Except Err (Option ChasingRef)
  | JVal.str s => Except.ok (some (ChasingRef.emailRef s))
  | JVal.null => Except.ok none
  | JVal.num _ => Except.error Err.typeError

/-- Zombie(encoded): Entity.FromString, then self.speed =
float(obj[speed]) (KeyError when absent), then the optional chasing
field.  A freshly decoded zombie was constructed with chasing=None. -/
noncomputable def zombieFromJson (o : Jobj) : Except Err Zombie := do
  let loc ← entityLocFromJson o
  let speedV ← jget o keySpeed
  let speed ← jnum speedV
  let ch ←
    (if jmem o keyChasing then do
      let cv ← jget o keyChasing
      chasingFromJVal cv
    else pure none)
  pure (Zombie.mk loc.1 loc.2 (some speed) ch)

/-- self.chasing.Email(): works on a Player object; a decoded chasing is
a plain string, and strings have no Email method (AttributeError). -/
def chasingEmail : ChasingRef → Except Err (Option String)
  | ChasingRef.playerRef p => Except.ok p.email
  | ChasingRef.emailRef _ => Except.error Err.attributeError

/-- Zombie.DictForJson / ToString: reading self.speed on a zombie
constructed without one raises AttributeError; chasing is emitted only
when truthy. -/
noncomputable def zombieToJson (z : Zombie) : Except Err Jobj := do
  let speedV ←
    (match z.speed with
     | none => Except.error Err.attributeError
     | some s => Except.ok (JVal.num s))
  if chasingTruthy z.chasing then
    match z.chasing with
    | some c => do
      let em ← chasingEmail c
      pure [(keyLat, jvalOfOpt z.lat), (keyLon, jvalOfOpt z.lon),
            (keySpeed, speedV), (keyChasing, jvalOfStrOpt em)]
    | none => Except.error Err.attributeError
  else
    pure [(keyLat, jvalOfOpt z.lat), (keyLon, jvalOfOpt z.lon),
          (keySpeed, speedV)]

/- The Game aggregate.  Fields not touched by any claim (owner, creation
and update timestamps, the key name) are omitted; last_update_time is
replaced by passing the computed elapsed seconds into GameAdvance. -/

structure Game where
  player_emails : List (Option String)
  players : List Jobj
  zombies : List Jobj
  destination : Option Jobj
  average_zombie_speed : ℝ
  zombie_density : ℝ
  started : Bool
  done : Bool
  humans_won : Option Bool

/-- Game.Players: decode every stored blob, first error wins. -/
noncomputable def GamePlayers (g : Game) : Except Err (List Player) :=
  g.players.mapM playerFromJson

/-- Game.LocatedPlayers: keep the players whose Lat() and Lon() are
truthy (set and nonzero). -/
noncomputable def LocatedPlayers (g : Game) : Except Err (List Player) := do
  let ps ← GamePlayers g
  pure (ps.filter (fun p => truthyF p.lat && truthyF p.lon))

/-- Game.SetPlayer: a replace index beyond the end raises
ModelStateError before any mutation.  The index comparison is the Python
integer comparison index > len - 1. -/
noncomputable def SetPlayer (g : Game) (index : ℕ) (p : Player) : Except Err Game :=
  if (index : ℤ) > (g.players.length : ℤ) - 1 then Except.error Err.modelState
  else do
    let enc ← playerToJson p
    pure { g with players := g.players.set index enc,
                  player_emails := g.player_emails.set index p.email }

/-- Game.SetZombie. -/
noncomputable def SetZombie (g : Game) (index : ℕ) (z : Zombie) : Except Err Game :=
  if (index : ℤ) > (g.zombies.length : ℤ) - 1 then Except.error Err.modelState
  else do
    let enc ← zombieToJson z
    pure { g with zombies := g.zombies.set index enc }

/-- Game.AddZombie. -/
noncomputable def GameAddZombie (g : Game) (z : Zombie) : Except Err Game := do
  let enc ← zombieToJson z
  pure { g with zombies := g.zombies ++ [enc] }

/-- Game.Destination(): Destination(self.destination) decodes only the
location part (Destination inherits Entity.FromString); a None encoded
argument leaves the location unset. -/
noncomputable def GameDestination (g : Game) : Except Err (Option ℝ × Option ℝ) :=
  match g.destination with
  | none => Except.ok (none, none)
  | some o => entityLocFromJson o

/-- Game.GameOver. -/
def GameOver (g : Game) (humansWon : Bool) : Game :=
  { g with done := true, humans_won := some humansWon }

/- Pursuer AI. -/

/-- The loop of Zombie.ComputeChasing: fold over the players tracking
(min_distance, min_player, loop variable).  min_player is computed by the
source but never used afterwards. -/
noncomputable def ComputeChasingFold (z : Zombie) (players : List Player) :
    Except Err (Option ℝ × Option Player × Option Player) :=
  players.foldlM
    (fun st p => do
      let d ← DistanceFromOpt z.lat z.lon p.lat p.lon
      match st.1 with
      | none => pure (some d, some p, some p)
      | some md =>
        if d < md then pure (some d, some p, some p)
        else pure (st.1, st.2.1, some p))
    (none, none, none)

/-- Zombie.ComputeChasing.  After the loop the code tests
min_distance < ZOMBIE_VISION_DISTANCE_METERS (in Python 2, None < 200 is
True) and assigns self.chasing = player, the loop variable: the LAST
player iterated, not min_player; when the player list was empty the loop
variable is unbound and reading it raises (UnboundLocal) NameError. -/
noncomputable def ComputeChasing (z : Zombie) (players : List Player) :
    Except Err Zombie := do
  let st ← ComputeChasingFold z players
  if pyLtNone st.1 ZOMBIE_VISION_DISTANCE_METERS then
    match st.2.2 with
    | some p => pure { z with chasing := some (ChasingRef.playerRef p) }
    | none => Except.error Err.nameError
  else
    pure { z with chasing := none }

/-- Zombie.MoveTowardsLatLon: linear interpolation in coordinate space
scaled by distance / dstToLatLon (magnitude 0 when the current distance
is not positive), then SetLocation. -/
noncomputable def MoveTowardsLatLon (z : Zombie) (lat lon distance : ℝ) :
    Except Err Zombie :=
  match z.lat, z.lon with
  | some zlat, some zlon =>
    let dstToLatLon := DistanceFromLatLon zlat zlon lat lon
    let magnitude := if dstToLatLon > 0 then distance / dstToLatLon else 0
    let dLat := (lat - zlat) * magnitude
    let dLon := (lon - zlon) * magnitude
    (SetLocation (zlat + dLat) (zlon + dLon)) >>= fun loc =>
      Except.ok { z with lat := some loc.1, lon := some loc.2 }
  | _, _ => Except.error Err.typeError

/-- A deterministic source standing in for random.random(): a stream of
draws and an index of the next one. -/
structure Rnd where
  stream : ℕ → ℝ
  idx : ℕ

def rndNext (r : Rnd) : ℝ × Rnd :=
  (r.stream r.idx, { r with idx := r.idx + 1 })

/-- One iteration of the while-loop body of Zombie.Advance, entered with
the remaining seconds.  Note the source computes
distance_to_move = seconds * self.speed from the REMAINING seconds (self.speed
unset raises AttributeError), recomputes the chasing target, and either
moves toward it capped at min(distance, distance_to_move) or wanders
toward a random nearby point. -/
noncomputable def ZombieAdvanceStep (z : Zombie) (seconds : ℝ)
    (players : List Player) (r : Rnd) : Except Err (Zombie × Rnd) := do
  let speed ←
    (match z.speed with
     | some s => Except.ok s
     | none => Except.error Err.attributeError)
  let distance_to_move := seconds * speed
  let z1 ← ComputeChasing z players
  if chasingTruthy z1.chasing then
    match z1.chasing with
    | some (ChasingRef.playerRef p) => do
      let distance ← DistanceFromOpt z1.lat z1.lon p.lat p.lon
      match p.lat, p.lon with
      | some plat, some plon => do
        let z2 ← MoveTowardsLatLon z1 plat plon (min distance distance_to_move)
        pure (z2, r)
      | _, _ => Except.error Err.typeError
    | _ => Except.error Err.attributeError
  else
    match z1.lat, z1.lon with
    | some zlat, some zlon => do
      let (u1, r1) := rndNext r
      let (u2, r2) := rndNext r1
      let random_lat := zlat + u1 - 0.5
      let random_lon := zlon + u2 - 0.5
      let z2 ← MoveTowardsLatLon z1 random_lat random_lon distance_to_move
      pure (z2, r2)
    | _, _ => Except.error Err.typeError

/-- The while seconds > 0 loop of Zombie.Advance, decrementing seconds by
one each iteration.  The fuel argument is exact: the loop runs ceil
seconds iterations, and when the fuel runs out the guard is already
false. -/
noncomputable def ZombieAdvanceLoop : ℕ → Zombie → ℝ → List Player → Rnd →
    Except Err (Zombie × Rnd)
  | 0, z, _, _, r => Except.ok (z, r)
  | Nat.succ n, z, seconds, players, r =>
    if 0 < seconds then do
      let zr ← ZombieAdvanceStep z seconds players r
      ZombieAdvanceLoop n zr.1 (seconds - 1) players zr.2
    else Except.ok (z, r)

/-- Zombie.Advance(seconds, player_iter).  The player iterator is
materialised by the caller (GameAdvance) before the loop. -/
noncomputable def ZombieAdvance (z : Zombie) (seconds : ℝ)
    (players : List Player) (r : Rnd) : Except Err (Zombie × Rnd) :=
  ZombieAdvanceLoop (Nat.ceil seconds) z seconds players r

/- Advance engine. -/

/-- Phase 1 of Game.Advance: for each stored zombie in order, decode it,
materialise LocatedPlayers, run Zombie.Advance, and store the re-encoded
result back at the same index (SetZombie with an in-range index). -/
noncomputable def AdvanceZombiesGo : List Jobj → ℝ → Except Err (List Player) →
    Rnd → Except Err (List Jobj × Rnd)
  | [], _, _, r => Except.ok ([], r)
  | o :: rest, secs, lpE, r => do
    let z ← zombieFromJson o
    let lp ← lpE
    let zr ← ZombieAdvance z secs lp r
    let o1 ← zombieToJson zr.1
    let restR ← AdvanceZombiesGo rest secs lpE zr.2
    Except.ok (o1 :: restR.1, restR.2)

/-- The inner trigger loop of Game.Advance: for every stored zombie, if
the player is within TRIGGER_DISTANCE_METERS, Zombie.Trigger fires
GameOver(False). -/
noncomputable def ZombieTriggerFold (g : Game) (p : Player) : Except Err Game :=
  g.zombies.foldlM
    (fun gacc o => do
      let z ← zombieFromJson o
      let d ← DistanceFromOpt p.lat p.lon z.lat z.lon
      if d < TRIGGER_DISTANCE_METERS then pure (GameOver gacc false)
      else pure gacc)
    g

/-- The per-player trigger body of Game.Advance: the destination check
first.  When it fires, the source calls self.destination.Trigger — but
self.destination is the ENCODED string property, and strings have no
Trigger method, so this raises AttributeError. -/
noncomputable def TriggerForPlayer (g : Game) (p : Player) : Except Err Game := do
  let destLoc ← GameDestination g
  let d ← DistanceFromOpt p.lat p.lon destLoc.1 destLoc.2
  let g1 ←
    (if d < TRIGGER_DISTANCE_METERS then
      (Except.error Err.attributeError : Except Err Game)
    else pure g)
  ZombieTriggerFold g1 p

/-- Phase 2 of Game.Advance: evaluate the triggers for every located
player in order. -/
noncomputable def TriggerPhase (g : Game) : Except Err Game := do
  let lp ← LocatedPlayers g
  lp.foldlM TriggerForPlayer g

/-- Game.Advance.  The wall-clock delta since last_update_time is passed
in as elapsedSeconds and capped at MAX_TIME_INTERVAL_SECS; the final
`if self.done: pass` of the source is a no-op.  Mutations performed
before an exception are discarded by the Except model; every claim
settled on this definition either stays on the error-free path up to the
point at issue or has the exception as its very subject. -/
noncomputable def GameAdvance (g : Game) (elapsedSeconds : ℝ) (r : Rnd) :
    Except Err Game := do
  let seconds_to_move := min elapsedSeconds MAX_TIME_INTERVAL_SECS
  let zsr ← AdvanceZombiesGo g.zombies seconds_to_move (LocatedPlayers g) r
  let g1 := { g with zombies := zsr.1 }
  TriggerPhase g1

/- Population generator (controllers/api.py, StartHandler). -/

/-- StartHandler.RandomPointNear: a uniformly random bearing (2*pi*u),
a unit coordinate step in that bearing, its true geodesic length, and a
linear scale by distance / base_to_distance (float division by zero
raises ZeroDivisionError). -/
noncomputable def RandomPointNear (lat lon distance u : ℝ) :
    Except Err (ℝ × ℝ) := do
  let radians := Real.pi * 2 * u
  let to_lat := lat + Real.sin radians
  let to_lon := lon + Real.cos radians
  let base ← SetLocation lat lon
  let t ← SetLocation to_lat to_lon
  let base_to_distance := DistanceFromLatLon base.1 base.2 t.1 t.2
  if base_to_distance = 0 then Except.error Err.zeroDivision
  else
    let magnitude := distance / base_to_distance
    let dLat := (to_lat - lat) * magnitude
    let dLon := (to_lon - lon) * magnitude
    pure (lat + dLat, lon + dLon)

/-- StartHandler.AddZombie, with the three random.random() draws made
explicit in the order the source consumes them: u1 for the speed jitter,
u2 for the distance from the cluster center, u3 for the bearing inside
RandomPointNear. -/
noncomputable def AddZombie (g : Game) (center_lat center_lon u1 u2 u3 : ℝ) :
    Except Err (Game × Zombie) := do
  let speed := g.average_zombie_speed * ((u1 - 0.5) * ZOMBIE_SPEED_VARIANCE + 1)
  let distance_from_center := u2 * MAX_ZOMBIE_CLUSTER_RADIUS
  let ll ← RandomPointNear center_lat center_lon distance_from_center u3
  let loc ← SetLocation ll.1 ll.2
  let z : Zombie := Zombie.mk (some loc.1) (some loc.2) (some speed) none
  let g2 ← GameAddZombie g z
  pure (g2, z)

/- Exact-value lemmas about the haversine distance. -/

theorem distance_self (lat lon : ℝ) : DistanceFromLatLon lat lon lat lon = 0 := by
  simp [DistanceFromLatLon, radiansOf, atan2, Real.arctan_zero]

theorem atan2_sin_cos (t : ℝ) (h0 : 0 ≤ t) (h : t ≤ Real.pi / 2) :
    atan2 (Real.sin t) (Real.cos t) = t := by
  rcases lt_or_eq_of_le h with hlt | heq
  · have hc : 0 < Real.cos t :=
      Real.cos_pos_of_mem_Ioo ⟨by linarith [Real.pi_pos], hlt⟩
    rw [atan2, if_pos hc, ← Real.tan_eq_sin_div_cos,
      Real.arctan_tan (by linarith [Real.pi_pos]) hlt]
  · rw [heq, Real.cos_pi_div_two, Real.sin_pi_div_two]
    simp [atan2]

theorem abs_sin_eq (t : ℝ) (h1 : -(Real.pi / 2) ≤ t) (h2 : t ≤ Real.pi / 2) :
    |Real.sin t| = Real.sin |t| := by
  rcases le_or_lt 0 t with h | h
  · rw [abs_of_nonneg h,
      abs_of_nonneg (Real.sin_nonneg_of_nonneg_of_le_pi h
        (by linarith [Real.pi_pos]))]
  · have hs : Real.sin t < 0 :=
      Real.sin_neg_of_neg_of_neg_pi_lt h (by linarith [Real.pi_pos])
    rw [abs_of_neg h, abs_of_neg hs, Real.sin_neg]

/-- On a meridian (equal longitudes) the haversine distance is exactly
the Earth radius times the subtended angle. -/
theorem distance_meridian (selfLat lat lon : ℝ)
    (h1 : -(Real.pi / 2) ≤ radiansOf ((lat - selfLat) / 2))
    (h2 : radiansOf ((lat - selfLat) / 2) ≤ Real.pi / 2) :
    DistanceFromLatLon selfLat lon lat lon =
      RADIUS_OF_EARTH_METERS * (2 * |radiansOf ((lat - selfLat) / 2)|) := by
  have hz : radiansOf ((lon - lon) / 2) = 0 := by simp [radiansOf]
  have hcos : 0 ≤ Real.cos (radiansOf ((lat - selfLat) / 2)) :=
    Real.cos_nonneg_of_mem_Icc ⟨h1, h2⟩
  have hsq : 1 - Real.sin (radiansOf ((lat - selfLat) / 2)) ^ 2 =
      Real.cos (radiansOf ((lat - selfLat) / 2)) ^ 2 := by
    have := Real.sin_sq_add_cos_sq (radiansOf ((lat - selfLat) / 2))
    linarith
  simp only [DistanceFromLatLon, hz, Real.sin_zero]
  rw [show (0 : ℝ) ^ 2 = 0 by norm_num, mul_zero, add_zero, hsq,
    Real.sqrt_sq_eq_abs, Real.sqrt_sq_eq_abs,
    abs_sin_eq _ h1 h2, abs_of_nonneg hcos, ← Real.cos_abs,
    atan2_sin_cos _ (abs_nonneg _) ((abs_le.mpr ⟨h1, h2⟩))]

/- Closed forms for the concrete distances used below. -/

theorem distVal1 : DistanceFromLatLon 10 45 10.001 45 =
    RADIUS_OF_EARTH_METERS * (Real.pi / 180000) := by
  have hp := Real.pi_pos
  have h1 : -(Real.pi / 2) ≤ radiansOf ((10.001 - 10) / 2) := by
    unfold radiansOf; nlinarith
  have h2 : radiansOf ((10.001 - 10) / 2) ≤ Real.pi / 2 := by
    unfold radiansOf; nlinarith
  rw [distance_meridian 10 10.001 45 h1 h2, radiansOf,
    abs_of_nonneg (by positivity)]
  ring

theorem distVal2 : DistanceFromLatLon 10 45 10.002 45 =
    RADIUS_OF_EARTH_METERS * (Real.pi / 90000) := by
  have hp := Real.pi_pos
  have h1 : -(Real.pi / 2) ≤ radiansOf ((10.002 - 10) / 2) := by
    unfold radiansOf; nlinarith
  have h2 : radiansOf ((10.002 - 10) / 2) ≤ Real.pi / 2 := by
    unfold radiansOf; nlinarith
  rw [distance_meridian 10 10.002 45 h1 h2, radiansOf,
    abs_of_nonneg (by positivity)]
  ring

theorem distValPole : DistanceFromLatLon 90 45 (-90) 45 =
    RADIUS_OF_EARTH_METERS * Real.pi := by
  have hp := Real.pi_pos
  have h1 : -(Real.pi / 2) ≤ radiansOf ((-90 - 90) / 2) := by
    unfold radiansOf; nlinarith
  have h2 : radiansOf ((-90 - 90) / 2) ≤ Real.pi / 2 := by
    unfold radiansOf; nlinarith
  rw [distance_meridian 90 (-90) 45 h1 h2, radiansOf]
  rw [show ((-90 : ℝ) - 90) / 2 * (Real.pi / 180) = -(Real.pi / 2) by ring,
    abs_neg, abs_of_nonneg (by positivity)]
  ring

theorem distVal1_lt_200 :
    RADIUS_OF_EARTH_METERS * (Real.pi / 180000) < 200 := by
  have h := Real.pi_lt_d2
  unfold RADIUS_OF_EARTH_METERS
  nlinarith

theorem distVal1_gt_100 :
    100 < RADIUS_OF_EARTH_METERS * (Real.pi / 180000) := by
  have h := Real.pi_gt_three
  unfold RADIUS_OF_EARTH_METERS
  nlinarith

theorem distVal1_pos :
    0 < RADIUS_OF_EARTH_METERS * (Real.pi / 180000) := by
  have h := Real.pi_pos
  unfold RADIUS_OF_EARTH_METERS
  nlinarith

theorem distVal1_lt_distVal2 :
    RADIUS_OF_EARTH_METERS * (Real.pi / 180000) <
      RADIUS_OF_EARTH_METERS * (Real.pi / 90000) := by
  have h := Real.pi_pos
  unfold RADIUS_OF_EARTH_METERS
  nlinarith

theorem distValPole_not_lt_10 :
    ¬ (RADIUS_OF_EARTH_METERS * Real.pi < 10) := by
  have h := Real.pi_gt_three
  unfold RADIUS_OF_EARTH_METERS
  nlinarith

/- Helper evaluation lemmas for the Python truthiness functions. -/

theorem jtruthy_num_of_ne {x : ℝ} (h : x ≠ 0) : jtruthy (JVal.num x) = true := by
  simp [jtruthy, h]

theorem jtruthy_num_zero : jtruthy (JVal.num 0) = false := by
  simp [jtruthy]

theorem truthyF_some_of_ne {x : ℝ} (h : x ≠ 0) : truthyF (some x) = true := by
  simp [truthyF, h]

theorem truthyF_some_zero : truthyF (some 0) = false := by
  simp [truthyF]

/- Evaluation lemmas for the string-key comparisons performed by jget
and jmem. -/

theorem beq_lat_lat : (keyLat == keyLat) = true := rfl

theorem beq_lat_lon : (keyLat == keyLon) = false := rfl

theorem beq_lat_email : (keyLat == keyEmail) = false := rfl

theorem beq_lon_lon : (keyLon == keyLon) = true := rfl

theorem beq_lon_email : (keyLon == keyEmail) = false := rfl

theorem beq_email_email : (keyEmail == keyEmail) = true := rfl

theorem beq_lat_speed : (keyLat == keySpeed) = false := rfl

theorem beq_lon_speed : (keyLon == keySpeed) = false := rfl

theorem beq_speed_speed : (keySpeed == keySpeed) = true := rfl

theorem beq_lat_chasing : (keyLat == keyChasing) = false := rfl

theorem beq_lon_chasing : (keyLon == keyChasing) = false := rfl

theorem beq_speed_chasing : (keySpeed == keyChasing) = false := rfl

/- Concrete inputs used by the claim theorems. -/

def emailA : String := "alice"
def emailB : String := "bob"

noncomputable def pA : Player := Player.mk (some 10.001) (some 45) (some emailA)

noncomputable def pB : Player := Player.mk (some 10.002) (some 45) (some emailB)

noncomputable def zC : Zombie := Zombie.mk (some 10) (some 45) (some 1) none

def rnd0 : Rnd := Rnd.mk (fun _ => 0) 0

/- ------------------------------------------------------------------ -/
/- Claim C7. -/

/-- Claim C7, counterexample: the claim says the great-circle distance is 0 iff
the two coordinates have the same latitude and longitude.  The
coordinates (90, 0) and (90, 90) are both valid, differ in longitude,
yet their haversine distance is exactly 0 (both are the north pole:
dlat is 0 and cos of 90 degrees kills the longitude term). -/
theorem c7_pole_counterexample :
    ((-90 : ℝ) ≤ 90 ∧ (90 : ℝ) ≤ 90 ∧ (-180 : ℝ) ≤ 0 ∧ (0 : ℝ) ≤ 180 ∧
      (-180 : ℝ) ≤ 90 ∧ (90 : ℝ) ≤ 180) ∧
    DistanceFromLatLon 90 0 90 90 = 0 ∧ (0 : ℝ) ≠ 90 := by
  refine ⟨by norm_num, ?_, by norm_num⟩
  have h : (90 : ℝ) * (Real.pi / 180) = Real.pi / 2 := by ring
  simp only [DistanceFromLatLon, radiansOf]
  rw [show ((90 : ℝ) - 90) / 2 * (Real.pi / 180) = 0 by ring, h,
    Real.cos_pi_div_two, Real.sin_zero]
  norm_num [atan2, Real.arctan_zero]

/-- Claim C7, amended: for valid coordinates the distance is 0 IF the two
points have the same latitude and longitude; the converse direction of
the claim is refuted by the counterexample above. -/
theorem c7_distance_zero_on_equal (lat1 lon1 lat2 lon2 : ℝ)
    (hlat : -90 ≤ lat1 ∧ lat1 ≤ 90) (hlon : -180 ≤ lon1 ∧ lon1 ≤ 180)
    (heqlat : lat1 = lat2) (heqlon : lon1 = lon2) :
    DistanceFromLatLon lat1 lon1 lat2 lon2 = 0 := by
  subst heqlat
  subst heqlon
  exact distance_self lat1 lon1

theorem c7_distance_zero_on_equal_witness :
    DistanceFromLatLon 45 30 45 30 = 0 :=
  c7_distance_zero_on_equal 45 30 45 30 (by norm_num) (by norm_num) rfl rfl

/- ------------------------------------------------------------------ -/
/- Claim C6. -/

/-- Claim C6: SetPlayer and SetZombie with an index at or beyond the end of
the collection raise ModelStateError, before any mutation (in this pure
embedding, an error result carries no mutated game at all). -/
theorem c6_set_out_of_range_raises (g : Game) (i j : ℕ) (p : Player)
    (z : Zombie) (hi : g.players.length ≤ i) (hj : g.zombies.length ≤ j) :
    SetPlayer g i p = Except.error Err.modelState ∧
    SetZombie g j z = Except.error Err.modelState := by
  constructor
  · rw [SetPlayer, if_pos (by omega)]
  · rw [SetZombie, if_pos (by omega)]

noncomputable def emptyGame : Game :=
  Game.mk [] [] [] none 1 20 false false none

theorem c6_set_out_of_range_raises_witness :
    SetPlayer emptyGame 0 (Player.mk none none none) =
      Except.error Err.modelState ∧
    SetZombie emptyGame 0 (Zombie.mk none none none none) =
      Except.error Err.modelState :=
  c6_set_out_of_range_raises emptyGame 0 0 (Player.mk none none none)
    (Zombie.mk none none none none) (by simp [emptyGame]) (by simp [emptyGame])

/- ------------------------------------------------------------------ -/
/- Claim C5. -/

/-- Claim C5, counterexample: a Player with the validly set coordinate (0, 10)
(first conjunct: SetLocation accepts it) and a non-empty email does NOT
round-trip: decoding the encoding drops the location, because
Entity.FromString tests the decoded lat with Python truthiness and 0 is
falsy. -/
theorem c5_zero_latitude_counterexample :
    SetLocation 0 10 = Except.ok (0, 10) ∧
    (playerToJson (Player.mk (some 0) (some 10) (some emailA)) >>=
        playerFromJson) =
      Except.ok (Player.mk none none (some emailA)) := by
  constructor
  · rw [SetLocation, if_neg (by norm_num), if_neg (by norm_num)]
  · simp [playerToJson, playerFromJson, entityLocFromJson, jget,
      jstrOrNull, List.find?, keyLat, keyLon, keyEmail, jvalOfOpt,
      jtruthy_num_zero]

/-- Claim C5, amended: the encode/decode round-trip reproduces the coordinate
and the variant fields exactly for validly constructed Players and
Pursuers whose latitude and longitude are both NONZERO; a zero
coordinate is dropped by the decoder (see the counterexample). -/
theorem c5_roundtrip_nonzero (lat lon s : ℝ) (em : String)
    (hlat : ¬(lat > 90 ∨ lat < -90)) (hlon : ¬(lon > 180 ∨ lon < -180))
    (hlat0 : lat ≠ 0) (hlon0 : lon ≠ 0) (hs : 0 < s) :
    (playerToJson (Player.mk (some lat) (some lon) (some em)) >>=
        playerFromJson) =
      Except.ok (Player.mk (some lat) (some lon) (some em)) ∧
    (zombieToJson (Zombie.mk (some lat) (some lon) (some s) none) >>=
        zombieFromJson) =
      Except.ok (Zombie.mk (some lat) (some lon) (some s) none) := by
  constructor
  · simp [playerToJson, playerFromJson, entityLocFromJson, jget,
      jnum, jstrOrNull, SetLocation, List.find?, keyLat, keyLon, keyEmail,
      jvalOfOpt, jtruthy_num_of_ne hlat0, jtruthy_num_of_ne hlon0,
      hlat, hlon]
  · simp [zombieToJson, zombieFromJson, entityLocFromJson, jget,
      jnum, chasingTruthy, jmem, SetLocation, List.find?, keyLat, keyLon,
      keySpeed, keyChasing, jvalOfOpt, jtruthy_num_of_ne hlat0,
      jtruthy_num_of_ne hlon0, hlat, hlon]

theorem c5_roundtrip_nonzero_witness :
    (playerToJson (Player.mk (some (45 : ℝ)) (some 30) (some emailA)) >>=
        playerFromJson) =
      Except.ok (Player.mk (some (45 : ℝ)) (some 30) (some emailA)) ∧
    (zombieToJson (Zombie.mk (some (45 : ℝ)) (some 30) (some 2) none) >>=
        zombieFromJson) =
      Except.ok (Zombie.mk (some (45 : ℝ)) (some 30) (some 2) none) :=
  c5_roundtrip_nonzero 45 30 2 emailA (by norm_num) (by norm_num)
    (by norm_num) (by norm_num) (by norm_num)

/- ------------------------------------------------------------------ -/
/- Claims C2 and C3. -/

/-- Claim C2, evaluation at the failing input: the zombie at (10, 45) sees two
located players, pA at (10.001, 45) (strictly nearer, second conjunct)
and pB at (10.002, 45).  The minimum distance is below the 200 m vision
radius, so a target is acquired — but ComputeChasing assigns the loop
variable, i.e. the LAST player pB, not the minimum-distance player pA
(min_player is computed by the source and never used). -/
theorem c2_chases_last_iterated_not_nearest :
    ComputeChasing zC [pA, pB] =
      Except.ok (Zombie.mk (some 10) (some 45) (some 1)
        (some (ChasingRef.playerRef pB))) ∧
    DistanceFromLatLon 10 45 10.001 45 < DistanceFromLatLon 10 45 10.002 45 := by
  have hAB : ¬ (DistanceFromLatLon 10 45 10.002 45 <
      DistanceFromLatLon 10 45 10.001 45) := by
    rw [distVal1, distVal2]
    exact not_lt.mpr (le_of_lt distVal1_lt_distVal2)
  have h200 : DistanceFromLatLon 10 45 10.001 45 < 200 := by
    rw [distVal1]
    exact distVal1_lt_200
  refine ⟨?_, by rw [distVal1, distVal2]; exact distVal1_lt_distVal2⟩
  simp [ComputeChasing, ComputeChasingFold, DistanceFromOpt, zC, pA, pB,
    pyLtNone, ZOMBIE_VISION_DISTANCE_METERS, hAB, h200]

/-- Claim C3, evaluation at the failing input: advancing a pursuer for one
second with an empty located-player collection raises instead of
completing normally.  In ComputeChasing the loop over players never
runs, min_distance stays None, Python 2 evaluates None < 200 as True,
and the assignment self.chasing = player reads an unbound loop
variable. -/
theorem c3_advance_with_no_players_raises :
    ZombieAdvance zC 1 [] rnd0 = Except.error Err.nameError := by
  simp [ZombieAdvance, Nat.ceil_one, ZombieAdvanceLoop, ZombieAdvanceStep,
    ComputeChasing, ComputeChasingFold, pyLtNone, zC]

/- ------------------------------------------------------------------ -/
/- Claim C4. -/

noncomputable def z4 : Zombie := Zombie.mk (some 10) (some 45) (some 100) none

/-- Claim C4, evaluation at the failing input: a chasing zombie with speed 100
advanced with elapsed time 2 s.  The FIRST 1-second loop iteration uses
the movement budget seconds * speed = 200 (remaining seconds, not 1 s),
so it lands exactly on the target (10.001, 45) — a displacement of
DistanceFromLatLon 10 45 10.001 45, which is about 111.3 m and exceeds
the claimed per-step cap min(distance, speed * 1) = 100 m (second
conjunct). -/
theorem c4_step_budget_exceeds_speed_times_one :
    ZombieAdvanceStep z4 2 [pA] rnd0 =
      Except.ok (Zombie.mk (some 10.001) (some 45) (some 100)
        (some (ChasingRef.playerRef pA)), rnd0) ∧
    min (DistanceFromLatLon 10 45 10.001 45) (100 * 1) <
      DistanceFromLatLon 10 45 10.001 45 := by
  have hpos : (0 : ℝ) < DistanceFromLatLon 10 45 10.001 45 := by
    rw [distVal1]; exact distVal1_pos
  have h100 : (100 : ℝ) ≤ DistanceFromLatLon 10 45 10.001 45 := by
    rw [distVal1]; exact le_of_lt distVal1_gt_100
  have h200 : DistanceFromLatLon 10 45 10.001 45 < 200 := by
    rw [distVal1]; exact distVal1_lt_200
  have hmin : min (DistanceFromLatLon 10 45 10.001 45) ((2 : ℝ) * 100) =
      DistanceFromLatLon 10 45 10.001 45 := by
    rw [min_eq_left]
    nlinarith
  have hdiv : DistanceFromLatLon 10 45 10.001 45 /
      DistanceFromLatLon 10 45 10.001 45 = 1 := div_self (ne_of_gt hpos)
  constructor
  · simp [ZombieAdvanceStep, ComputeChasing, ComputeChasingFold,
      DistanceFromOpt, chasingTruthy, MoveTowardsLatLon, SetLocation,
      pyLtNone, ZOMBIE_VISION_DISTANCE_METERS, z4, pA, h200, hpos, hmin,
      hdiv]
    norm_num
  · rw [show (100 : ℝ) * 1 = 100 by norm_num, min_eq_right h100, distVal1]
    exact distVal1_gt_100

/- ------------------------------------------------------------------ -/
/- Claims C1 and C8. -/

noncomputable def pJ : Jobj :=
  [(keyLat, JVal.num 90), (keyLon, JVal.num 45), (keyEmail, JVal.str emailA)]

noncomputable def dJ : Jobj := [(keyLat, JVal.num 90), (keyLon, JVal.num 45)]

noncomputable def zJ : Jobj :=
  [(keyLat, JVal.num 90), (keyLon, JVal.num 45), (keySpeed, JVal.num 2)]

noncomputable def dJ2 : Jobj := [(keyLat, JVal.num (-90)), (keyLon, JVal.num 45)]

/-- The C1 failing input: a started game, no zombies, one located player
standing exactly on the destination (90, 45). -/
noncomputable def g1 : Game :=
  Game.mk [some emailA] [pJ] [] (some dJ) 1 20 true false none

/-- Claim C1, evaluation at the failing input: a single advance of a started
game whose located player is within 10 m of the destination does NOT
terminate normally with done and winner set — it raises AttributeError,
because Game.Advance calls Trigger on self.destination, the ENCODED
destination string, instead of on the decoded Destination entity. -/
theorem c1_destination_trigger_raises :
    g1.started = true ∧ GameAdvance g1 0 rnd0 = Except.error Err.attributeError := by
  have hmin : min (0 : ℝ) MAX_TIME_INTERVAL_SECS = 0 := by
    rw [min_eq_left]
    unfold MAX_TIME_INTERVAL_SECS
    norm_num
  have h90 : (90 : ℝ) ≠ 0 := by norm_num
  have h45 : (45 : ℝ) ≠ 0 := by norm_num
  refine ⟨rfl, ?_⟩
  norm_num [GameAdvance, hmin, AdvanceZombiesGo, TriggerPhase,
    LocatedPlayers, GamePlayers, g1, pJ, dJ, playerFromJson,
    entityLocFromJson, jget, List.find?, List.mapM, List.mapM.loop,
    beq_lat_lat, beq_lat_lon, beq_lat_email, beq_lon_lon, beq_lon_email,
    beq_email_email,
    jtruthy_num_of_ne h90, jtruthy_num_of_ne h45, jnum, jstrOrNull,
    SetLocation, truthyF_some_of_ne h90, truthyF_some_of_ne h45,
    List.filter, TriggerForPlayer, GameDestination, DistanceFromOpt,
    distance_self, TRIGGER_DISTANCE_METERS]

/-- The C8 failing input: a game that is already done with the players
recorded as winners (humans_won = true), whose located player at
(90, 45) stands 0 m from the stored zombie and far from the destination
at (-90, 45); elapsed time 0 so the zombie does not move. -/
noncomputable def g8 : Game :=
  Game.mk [some emailA] [pJ] [zJ] (some dJ2) 1 20 true true (some true)

/-- Claim C8, evaluation at the failing input: advancing a game whose done flag
is already true and whose recorded winner is the players overwrites the
winner: the zombie trigger fires (player within 10 m of a zombie) and
GameOver(False) sets humans_won to false.  Game.Advance never checks
done before evaluating triggers. -/
theorem c8_later_trigger_overwrites_winner :
    g8.done = true ∧ g8.humans_won = some true ∧
    GameAdvance g8 0 rnd0 =
      Except.ok (Game.mk [some emailA] [pJ] [zJ] (some dJ2) 1 20 true true
        (some false)) := by
  have hmin : min (0 : ℝ) MAX_TIME_INTERVAL_SECS = 0 := by
    rw [min_eq_left]
    unfold MAX_TIME_INTERVAL_SECS
    norm_num
  have h90 : (90 : ℝ) ≠ 0 := by norm_num
  have h45 : (45 : ℝ) ≠ 0 := by norm_num
  have hneg90 : (-90 : ℝ) ≠ 0 := by norm_num
  have hfar : ¬ (DistanceFromLatLon 90 45 (-90) 45 < 10) := by
    rw [distValPole]
    exact distValPole_not_lt_10
  refine ⟨rfl, rfl, ?_⟩
  norm_num [GameAdvance, hmin, AdvanceZombiesGo, TriggerPhase,
    LocatedPlayers, GamePlayers, g8, pJ, zJ, dJ2, playerFromJson,
    zombieFromJson, zombieToJson, entityLocFromJson, jget, jmem,
    List.find?, List.mapM, List.mapM.loop,
    beq_lat_lat, beq_lat_lon, beq_lat_email, beq_lon_lon, beq_lon_email,
    beq_email_email, beq_lat_speed, beq_lon_speed, beq_speed_speed,
    beq_lat_chasing, beq_lon_chasing, beq_speed_chasing,
    jtruthy_num_of_ne h90, jtruthy_num_of_ne h45,
    jtruthy_num_of_ne hneg90, jnum, jstrOrNull, SetLocation,
    truthyF_some_of_ne h90, truthyF_some_of_ne h45, List.filter,
    ZombieAdvance, Nat.ceil_zero, ZombieAdvanceLoop, chasingTruthy,
    jvalOfOpt, TriggerForPlayer, GameDestination, DistanceFromOpt,
    distance_self, hfar, ZombieTriggerFold, GameOver,
    TRIGGER_DISTANCE_METERS]

/- ------------------------------------------------------------------ -/
/- Claim C9. -/

/-- Claim C9: every pursuer added by the population generator gets the
individual speed averageSpeed * (1 + (u1 - 0.5) * 0.2) for the uniform
draw u1 in [0, 1), which lies within plus or minus 10 percent of the
configured average (lower bound attained at u1 = 0, upper bound strict). -/
theorem c9_added_zombie_speed (g : Game) (clat clon u1 u2 u3 : ℝ)
    (g2 : Game) (z : Zombie)
    (hok : AddZombie g clat clon u1 u2 u3 = Except.ok (g2, z))
    (hu0 : 0 ≤ u1) (hu1 : u1 < 1) (hs : 0 < g.average_zombie_speed) :
    z.speed = some (g.average_zombie_speed * (1 + (u1 - 0.5) * 0.2)) ∧
    0.9 * g.average_zombie_speed ≤
      g.average_zombie_speed * (1 + (u1 - 0.5) * 0.2) ∧
    g.average_zombie_speed * (1 + (u1 - 0.5) * 0.2) <
      1.1 * g.average_zombie_speed := by
  have hz : z.speed = some (g.average_zombie_speed *
      ((u1 - 0.5) * ZOMBIE_SPEED_VARIANCE + 1)) := by
    cases hrp : RandomPointNear clat clon (u2 * MAX_ZOMBIE_CLUSTER_RADIUS) u3 with
    | error e => simp [AddZombie, hrp] at hok
    | ok ll =>
      cases hsl : SetLocation ll.1 ll.2 with
      | error e => simp [AddZombie, hrp, hsl] at hok
      | ok loc =>
        simp [AddZombie, hrp, hsl, GameAddZombie, zombieToJson,
          chasingTruthy] at hok
        rw [← hok.2]
  refine ⟨?_, by nlinarith, by nlinarith⟩
  rw [hz]
  exact congrArg some (by unfold ZOMBIE_SPEED_VARIANCE; ring)

theorem c9_base_dist_pos : 0 < DistanceFromLatLon 10 45 10 46 := by
  have hc : 0 < Real.cos (radiansOf 10) := by
    apply Real.cos_pos_of_mem_Ioo
    constructor
    · unfold radiansOf; nlinarith [Real.pi_pos]
    · unfold radiansOf; nlinarith [Real.pi_pos]
  have hsin : 0 < Real.sin (radiansOf (1 / 2)) := by
    apply Real.sin_pos_of_pos_of_lt_pi
    · unfold radiansOf; nlinarith [Real.pi_pos]
    · unfold radiansOf; nlinarith [Real.pi_pos]
  simp only [DistanceFromLatLon]
  rw [show ((10 : ℝ) - 10) / 2 = 0 by norm_num,
    show ((46 : ℝ) - 45) / 2 = 1 / 2 by norm_num,
    show radiansOf 0 = 0 by unfold radiansOf; ring, Real.sin_zero]
  have ha : 0 < Real.cos (radiansOf 10) * Real.cos (radiansOf 10) *
      Real.sin (radiansOf (1 / 2)) ^ 2 :=
    mul_pos (mul_pos hc hc) (pow_pos hsin 2)
  have hy : 0 < Real.sqrt (0 ^ 2 + Real.cos (radiansOf 10) *
      Real.cos (radiansOf 10) * Real.sin (radiansOf (1 / 2)) ^ 2) := by
    apply Real.sqrt_pos.mpr
    nlinarith
  have hat : 0 < atan2
      (Real.sqrt (0 ^ 2 + Real.cos (radiansOf 10) * Real.cos (radiansOf 10) *
        Real.sin (radiansOf (1 / 2)) ^ 2))
      (Real.sqrt (1 - (0 ^ 2 + Real.cos (radiansOf 10) *
        Real.cos (radiansOf 10) * Real.sin (radiansOf (1 / 2)) ^ 2))) := by
    rcases lt_or_eq_of_le (Real.sqrt_nonneg (1 - (0 ^ 2 +
        Real.cos (radiansOf 10) * Real.cos (radiansOf 10) *
        Real.sin (radiansOf (1 / 2)) ^ 2))) with hxp | hx0
    · rw [atan2, if_pos hxp]
      have hq : (0 : ℝ) < Real.sqrt (0 ^ 2 + Real.cos (radiansOf 10) *
          Real.cos (radiansOf 10) * Real.sin (radiansOf (1 / 2)) ^ 2) /
          Real.sqrt (1 - (0 ^ 2 + Real.cos (radiansOf 10) *
          Real.cos (radiansOf 10) * Real.sin (radiansOf (1 / 2)) ^ 2)) :=
        div_pos hy hxp
      have := Real.arctan_strictMono hq
      rwa [Real.arctan_zero] at this
    · rw [atan2, if_neg (by rw [← hx0]; exact lt_irrefl 0),
        if_neg (by rw [← hx0]; exact lt_irrefl 0), if_pos hy]
      have := Real.pi_pos
      linarith
  unfold RADIUS_OF_EARTH_METERS
  nlinarith

noncomputable def gW : Game := Game.mk [] [] [] none 1 20 true false none

theorem c9_added_zombie_speed_witness :
    ∃ g2 z, AddZombie gW 10 45 (1 / 2) 0 0 = Except.ok (g2, z) ∧
      z.speed = some (gW.average_zombie_speed * (1 + ((1 : ℝ) / 2 - 0.5) * 0.2)) := by
  have hD : DistanceFromLatLon 10 45 10 46 ≠ 0 := ne_of_gt c9_base_dist_pos
  have hok : AddZombie gW 10 45 (1 / 2) 0 0 =
      Except.ok (Game.mk [] [] [[(keyLat, JVal.num 10), (keyLon, JVal.num 45),
          (keySpeed, JVal.num 1)]] none 1 20 true false none,
        Zombie.mk (some 10) (some 45) (some 1) none) := by
    norm_num [AddZombie, RandomPointNear, SetLocation, GameAddZombie,
      zombieToJson, jvalOfOpt, chasingTruthy, gW, hD,
      MAX_ZOMBIE_CLUSTER_RADIUS, ZOMBIE_SPEED_VARIANCE]
  refine ⟨_, _, hok, ?_⟩
  exact (c9_added_zombie_speed gW 10 45 (1 / 2) 0 0 _ _ hok (by norm_num)
    (by norm_num) (by norm_num [gW])).1

/- ------------------------------------------------------------------ -/
/- Claim C10. -/

theorem truthyF_eq_true_iff (o : Option ℝ) :
    truthyF o = true ↔ ∃ x, o = some x ∧ x ≠ 0 := by
  cases o with
  | none => simp [truthyF]
  | some x =>
    by_cases h : x = 0
    · subst h; simp [truthyF]
    · simp [truthyF, h]

/-- Claim C10: LocatedPlayers yields exactly the decoded players whose
latitude and longitude are both set and both nonzero (Python truthiness
of the coordinate).  GameAdvance passes this collection both to pursuer
target acquisition and to the trigger loop, so a player at latitude 0 or
longitude 0 is excluded from both. -/
theorem c10_located_players_iff (g : Game) (ps lps : List Player)
    (hps : GamePlayers g = Except.ok ps)
    (hl : LocatedPlayers g = Except.ok lps) (p : Player) :
    p ∈ lps ↔ p ∈ ps ∧ (∃ x, p.lat = some x ∧ x ≠ 0) ∧
      (∃ y, p.lon = some y ∧ y ≠ 0) := by
  have hfil : lps = ps.filter (fun q => truthyF q.lat && truthyF q.lon) := by
    rw [LocatedPlayers, hps] at hl
    simp at hl
    exact hl.symm
  subst hfil
  rw [List.mem_filter]
  simp [Bool.and_eq_true, truthyF_eq_true_iff]

noncomputable def pJ0 : Jobj :=
  [(keyLat, JVal.num 0), (keyLon, JVal.num 30), (keyEmail, JVal.str emailB)]

noncomputable def g10 : Game :=
  Game.mk [some emailA, some emailB] [pJ, pJ0] [] none 1 20 true false none

theorem c10_players_eval : GamePlayers g10 =
    Except.ok [Player.mk (some 90) (some 45) (some emailA),
               Player.mk none none (some emailB)] := by
  have h90 : (90 : ℝ) ≠ 0 := by norm_num
  have h45 : (45 : ℝ) ≠ 0 := by norm_num
  norm_num [GamePlayers, g10, pJ, pJ0, List.mapM, List.mapM.loop,
    playerFromJson, entityLocFromJson, jget, List.find?, beq_lat_lat,
    beq_lat_lon, beq_lat_email, beq_lon_lon, beq_lon_email,
    beq_email_email, jtruthy_num_of_ne h90, jtruthy_num_of_ne h45,
    jtruthy_num_zero, jnum, jstrOrNull, SetLocation]

theorem c10_located_eval : LocatedPlayers g10 =
    Except.ok [Player.mk (some 90) (some 45) (some emailA)] := by
  have h90 : (90 : ℝ) ≠ 0 := by norm_num
  have h45 : (45 : ℝ) ≠ 0 := by norm_num
  rw [LocatedPlayers, c10_players_eval]
  norm_num [List.filter, truthyF_some_of_ne h90, truthyF_some_of_ne h45,
    truthyF]

theorem c10_located_players_iff_witness :
    Player.mk (some (90 : ℝ)) (some 45) (some emailA) ∈
        [Player.mk (some (90 : ℝ)) (some 45) (some emailA)] ↔
      Player.mk (some (90 : ℝ)) (some 45) (some emailA) ∈
          [Player.mk (some (90 : ℝ)) (some 45) (some emailA),
            Player.mk none none (some emailB)] ∧
      (∃ x, some (90 : ℝ) = some x ∧ x ≠ 0) ∧
      (∃ y, some (45 : ℝ) = some y ∧ y ≠ 0) :=
  c10_located_players_iff g10
    [Player.mk (some 90) (some 45) (some emailA),
     Player.mk none none (some emailB)]
    [Player.mk (some 90) (some 45) (some emailA)]
    c10_players_eval c10_located_eval
    (Player.mk (some 90) (some 45) (some emailA))

end ZombieRun
